import Mathlib

/-!
Shallow embedding of the order-assembly and stock-reconciliation workflow of
the `apiOrders` service (`src/Controllers/orderController.js`,
`src/Models/order.js`, and the loop-based variant `src/unnamed/part_003`).

Modelling conventions:
* JS numbers carried by requests and catalog records are modelled as `Int`;
  a field that may be absent or non-numeric (the code checks
  `typeof x !== 'number' || isNaN(x)`) is an `Option Int` whose `none` case
  stands for "absent or not a number".
* A JS string field that may be absent is an `Option String`; a falsy value
  (`undefined`, `null`, `""`) is normalised through `truthyStr`.
* An outbound axios call that throws (network error, non-2xx status) or a
  resolver that returns no usable record is the `none` case of the
  corresponding environment lookup.
* The Mongo collection backing the `Order` model is an association list
  `List (String × Order)` from document id to document; `countDocuments`
  is its length, `find` enumerates it in insertion order.
-/

/-- JS truthiness for an optional string field: `undefined`/`null`/`""` are falsy. -/
def truthyStr : Option String → Option String
  | none => none
  | some s => if s = "" then none else some s

/-- The JS expression `q || 1` applied to an optional numeric field
(`undefined` and `0` are falsy). -/
def jsOr1 : Option Int → Int
  | none => 1
  | some n => if n = 0 then 1 else n

/-- The JS expression `parseInt(x) || d`: an absent or zero parsed value
falls back to the default `d`. -/
def jsNumOr (v : Option Nat) (d : Nat) : Nat :=
  match v with
  | none => d
  | some n => if n = 0 then d else n

/-- `mongoose.Types.ObjectId.isValid`: a 24-character hex string or a
12-character string. -/
def isHexChar (c : Char) : Bool :=
  c.isDigit || ('a' ≤ c && c ≤ 'f') || ('A' ≤ c && c ≤ 'F')

def isValidObjectId (s : String) : Bool :=
  (s.length = 24 && s.toList.all isHexChar) || s.length = 12

/-- A raw line item as it arrives in the request body
(`{productId | serviceId, quantity}`). -/
structure ReqItem where
  productId : Option String
  serviceId : Option String
  quantity : Option Int
deriving Repr, DecidableEq

/-- An item as stored on an order document (schema `OrderSchema.items`):
`name` and `price` are denormalised at creation time and absent when an
edit patch writes raw request items back. -/
structure OrderItem where
  productId : Option String
  serviceId : Option String
  quantity : Option Int
  name : Option String
  price : Option Int
deriving Repr, DecidableEq

/-- Resolved product record (`productResponse.data.product`): the code reads
`name`, `price` (validated numeric) and the catalog also carries `stock`. -/
structure ProductRec where
  name : String
  price : Option Int
  stock : Int
deriving Repr, DecidableEq

/-- Resolved service record (`serviceResponse.data.service`). -/
structure ServiceRec where
  name : String
  price : Option Int
deriving Repr, DecidableEq

/-- Resolved client record (`clientResponse.data`). -/
structure ClientRec where
  name : String
  email : String
  phone : String
deriving Repr, DecidableEq

/-- Resolved store record (`storeResponse.data.store`). -/
structure StoreRec where
  id : String
  name : String
  address : String
deriving Repr, DecidableEq

/-- Denormalised client snapshot written on the order document. -/
structure ClientSnapshot where
  id : String
  name : String
  email : String
  phone : String
deriving Repr, DecidableEq

/-- Denormalised store snapshot written on the order document. -/
structure StoreSnapshot where
  id : String
  name : String
  address : String
deriving Repr, DecidableEq

/-- An order document (`src/Models/order.js`). -/
structure Order where
  items : List OrderItem
  total : Int
  client : Option ClientSnapshot
  store : Option StoreSnapshot
  paymentType : Option String
  order_number : Nat
deriving Repr, DecidableEq

/-- The remote collaborators and their behaviour for one request: `none`
means the call throws or the response carries no usable record;
`stockUpdateOk` tells whether the `PUT /stock/:id` call succeeds. -/
structure Env where
  clients : String → Option ClientRec
  stores : String → Option StoreRec
  products : String → Option ProductRec
  services : String → Option ServiceRec
  stockUpdateOk : String → Bool

/-- One outbound remote call. -/
inductive Call where
  | getUser (id : String)
  | getStore (id : String)
  | getProduct (id : String)
  | getService (id : String)
  | putStock (id : String) (newQuantity : Int)
deriving Repr, DecidableEq

/-- One operation against the Order store. -/
inductive StoreOp where
  | countDocuments
  | save
deriving Repr, DecidableEq

/-- Request body of `POST /CreateOrder`. A missing or non-array `items`
field is `none`. The `total` field models a caller-supplied total (spread
into the document builder by `...req.body` but overridden). -/
structure CreateBody where
  items : Option (List ReqItem)
  clientId : Option String
  storeId : Option String
  paymentType : Option String
  total : Option Int
deriving Repr, DecidableEq

def dbLookup (db : List (String × Order)) (id : String) : Option Order :=
  (db.find? (fun p => p.1 = id)).map Prod.snd

def dbUpdate (db : List (String × Order)) (id : String) (o : Order) :
    List (String × Order) :=
  db.map (fun p => if p.1 = id then (p.1, o) else p)

/-- Resolution and pricing of one raw item (`itemDetailsPromises` body,
orderController.js:228-285): product branch fetches the product, validates
price and quantity and contributes `price * quantity`; service branch
fetches the service, validates price and contributes `price`; an item with
neither id throws. Returns the calls issued and either failure or the
detailed item plus its subtotal. -/
def resolveItem (env : Env) (it : ReqItem) :
    List Call × Except Unit (OrderItem × Int) :=
  match truthyStr it.productId with
  | some pid =>
    ([Call.getProduct pid],
      match env.products pid with
      | none => Except.error ()
      | some p =>
        match p.price with
        | none => Except.error ()
        | some price =>
          match it.quantity with
          | none => Except.error ()
          | some q =>
            if q ≤ 0 then Except.error ()
            else Except.ok
              ({ productId := it.productId, serviceId := it.serviceId,
                 quantity := it.quantity, name := some p.name,
                 price := some price }, price * q))
  | none =>
    match truthyStr it.serviceId with
    | some sid =>
      ([Call.getService sid],
        match env.services sid with
        | none => Except.error ()
        | some s =>
          match s.price with
          | none => Except.error ()
          | some price =>
            Except.ok
              ({ productId := it.productId, serviceId := it.serviceId,
                 quantity := it.quantity, name := some s.name,
                 price := some price }, price))
    | none => ([], Except.error ())

/-- Sequential composition of `resolveItem` over the item list, threading
the accumulated total (`total += ...`) and collecting the calls issued. -/
def resolveItems (env : Env) : List ReqItem →
    List Call × Except Unit (List OrderItem × Int)
  | [] => ([], Except.ok ([], 0))
  | it :: rest =>
    let (cs, r) := resolveItem env it
    match r with
    | Except.error () => (cs, Except.error ())
    | Except.ok (d, sub) =>
      let (cs', r') := resolveItems env rest
      (cs ++ cs',
        match r' with
        | Except.error () => Except.error ()
        | Except.ok (ds, t) => Except.ok (d :: ds, sub + t))

/-- Validation, resolution and document assembly phase of `createOrder`
(orderController.js:197-318), up to but excluding the save. On failure the
error carries the remote calls issued before the failure. The order count
is read (`countDocuments`) and the new document gets `order_number =
count + 1`; the caller-supplied `total` is overridden by the computed one. -/
def buildOrder (env : Env) (db : List (String × Order)) (body : CreateBody) :
    Except (List Call) (Order × List Call) :=
  match body.items with
  | none => Except.error []
  | some items =>
    if items.isEmpty then Except.error []
    else
      match truthyStr body.clientId, truthyStr body.storeId with
      | some cid, some sid =>
        match env.clients cid with
        | none => Except.error [Call.getUser cid]
        | some client =>
          match env.stores sid with
          | none => Except.error [Call.getUser cid, Call.getStore sid]
          | some store =>
            let (itemCalls, r) := resolveItems env items
            let calls := Call.getUser cid :: Call.getStore sid :: itemCalls
            match r with
            | Except.error () => Except.error calls
            | Except.ok (details, total) =>
              Except.ok
                ({ items := details, total := total,
                   client := some { id := cid, name := client.name,
                                    email := client.email, phone := client.phone },
                   store := some { id := store.id, name := store.name,
                                   address := store.address },
                   paymentType := body.paymentType,
                   order_number := db.length + 1 }, calls)
      | _, _ => Except.error []

/-- Mongoose validation on `save()`: `paymentType` is a required string and
`order_number` carries a unique index. -/
def saveOk (db : List (String × Order)) (o : Order) : Bool :=
  (truthyStr o.paymentType).isSome &&
    db.all (fun p => p.2.order_number ≠ o.order_number)

/-- Stock-reconciliation calls of `createOrder` (orderController.js:323-347):
one `PUT /stock/:productId` with `newQuantity = quantity || 1` per product
item; service items issue no call (`return null`). All promises are started
by the map, so all calls are issued. -/
def stockCallsOf (details : List OrderItem) : List Call :=
  details.filterMap (fun d =>
    (truthyStr d.productId).map (fun pid => Call.putStock pid (jsOr1 d.quantity)))

/-- `Promise.all` over the stock updates succeeds iff every product item's
stock call succeeds. -/
def stockAllOk (env : Env) (details : List OrderItem) : Bool :=
  details.all (fun d =>
    match truthyStr d.productId with
    | some pid => env.stockUpdateOk pid
    | none => true)

/-- Outcome of one `createOrder` request: response status, the Order
collection afterwards, the resolver calls and reconciliation calls issued,
the store operations performed, and the document persisted by `save()`
(if any). -/
structure CreateResult where
  status : Nat
  db : List (String × Order)
  resolveCalls : List Call
  stockCalls : List Call
  storeOps : List StoreOp
  savedOrder : Option Order
deriving Repr, DecidableEq

/-- `exports.createOrder` (orderController.js:193-360). Every thrown error
is caught by the surrounding try/catch and answered with status 500; the
success path persists the document and then runs the stock reconciliation,
whose failure also yields 500 but leaves the saved order in place. `newId`
is the document id the store assigns. -/
def createOrder (env : Env) (db : List (String × Order)) (body : CreateBody)
    (newId : String) : CreateResult :=
  match buildOrder env db body with
  | Except.error calls =>
    { status := 500, db := db, resolveCalls := calls, stockCalls := [],
      storeOps := [], savedOrder := none }
  | Except.ok (o, calls) =>
    if saveOk db o then
      { status := if stockAllOk env o.items then 200 else 500,
        db := db ++ [(newId, o)], resolveCalls := calls,
        stockCalls := stockCallsOf o.items,
        storeOps := [StoreOp.countDocuments, StoreOp.save],
        savedOrder := some o }
    else
      { status := 500, db := db, resolveCalls := calls, stockCalls := [],
        storeOps := [StoreOp.countDocuments, StoreOp.save], savedOrder := none }

/-- Request body of the edit endpoint. `findByIdAndUpdate(id, req.body)`
applies the body as a `$set` patch without running validators; fields
absent from the body are left untouched, unknown fields are stripped. -/
structure EditBody where
  items : Option (List ReqItem)
  total : Option Int
  paymentType : Option String
deriving Repr, DecidableEq

/-- The patch semantics of `Order.findByIdAndUpdate(id, req.body)`: raw
request items are written back as stored items whose denormalised `name`
and `price` are absent; a caller-supplied `total` replaces the stored one. -/
def applyPatch (o : Order) (b : EditBody) : Order :=
  { o with
    items :=
      match b.items with
      | some l => l.map (fun it =>
          { productId := it.productId, serviceId := it.serviceId,
            quantity := it.quantity, name := none, price := none })
      | none => o.items,
    total :=
      match b.total with
      | some t => t
      | none => o.total,
    paymentType :=
      match b.paymentType with
      | some p => some p
      | none => o.paymentType }

/-- Reconciliation fan-out of `editOrder` (orderController.js:447-479): a
product item issues `PUT /stock/:productId` with `quantity || 1`, a service
item issues a confirmation `GET /service/:serviceId`, an item with neither
id throws. All promises are started by the map, so every product/service
call is issued; the joint await succeeds iff every item succeeded. -/
def editReconcile (env : Env) : List ReqItem → List Call × Bool
  | [] => ([], true)
  | it :: rest =>
    let (cs, ok) := editReconcile env rest
    match truthyStr it.productId with
    | some pid =>
      (Call.putStock pid (jsOr1 it.quantity) :: cs, env.stockUpdateOk pid && ok)
    | none =>
      match truthyStr it.serviceId with
      | some sid =>
        (Call.getService sid :: cs, (env.services sid).isSome && ok)
      | none => (cs, false)

/-- Outcome of one `editOrder` request. -/
structure EditResult where
  status : Nat
  db : List (String × Order)
  stockCalls : List Call
  updatedOrder : Option Order
deriving Repr, DecidableEq

/-- `exports.editOrder` (orderController.js:430-492). The only id check is
JS truthiness (`if (!id)`); a malformed non-empty id makes
`Order.findById(id)` throw a CastError, caught by the try/catch as 500.
The document is overwritten by the patch before the item list of the body
is ever inspected, so a body without an `items` array yields a 500 response
after the update has been applied. -/
def editOrder (env : Env) (db : List (String × Order)) (id : Option String)
    (body : EditBody) : EditResult :=
  match truthyStr id with
  | none => { status := 400, db := db, stockCalls := [], updatedOrder := none }
  | some i =>
    if isValidObjectId i then
      match dbLookup db i with
      | none => { status := 404, db := db, stockCalls := [], updatedOrder := none }
      | some o =>
        let o' := applyPatch o body
        let db' := dbUpdate db i o'
        match body.items with
        | none =>
          { status := 500, db := db', stockCalls := [], updatedOrder := some o' }
        | some items =>
          let (calls, ok) := editReconcile env items
          { status := if ok then 200 else 500, db := db', stockCalls := calls,
            updatedOrder := some o' }
    else
      { status := 500, db := db, stockCalls := [], updatedOrder := none }

/-- Outcome of one `ReadOrder` request. -/
structure ReadResult where
  status : Nat
  order : Option Order
deriving Repr, DecidableEq

/-- `exports.ReadOrder` (orderController.js:126-145): validates the id
syntactically before querying (400), then 404 on a missing document. -/
def ReadOrder (db : List (String × Order)) (id : String) : ReadResult :=
  if isValidObjectId id then
    match dbLookup db id with
    | none => { status := 404, order := none }
    | some o => { status := 200, order := some o }
  else
    { status := 400, order := none }

/-- Outcome of one `RemoveOrder` request. -/
structure RemoveResult where
  status : Nat
  db : List (String × Order)
  order : Option Order
deriving Repr, DecidableEq

/-- `exports.RemoveOrder` (orderController.js:554-573): validates the id
syntactically before querying (400), 404 on a missing document, otherwise
deletes the document and echoes it. -/
def RemoveOrder (db : List (String × Order)) (id : String) : RemoveResult :=
  if isValidObjectId id then
    match dbLookup db id with
    | none => { status := 404, db := db, order := none }
    | some o =>
      { status := 200, db := db.filter (fun p => p.1 ≠ id), order := some o }
  else
    { status := 400, db := db, order := none }

/-- Pagination metadata of `ReadOrders`. -/
structure PageInfo where
  currentPage : Nat
  totalPages : Nat
  totalOrders : Nat
deriving Repr, DecidableEq

/-- Outcome of one `ReadOrders` request. -/
structure ListResult where
  status : Nat
  orders : List (String × Order)
  pageInfo : Option PageInfo
deriving Repr, DecidableEq

/-- `exports.ReadOrders` (orderController.js:57-76): defaults page to 1 and
limit to 20, rejects `limit > 100` with 400, otherwise returns the slice
`skip((page-1)*limit).limit(limit)` and `totalPages =
Math.ceil(totalOrders / limit)` (exact real division, then ceiling). -/
def ReadOrders (db : List (String × Order)) (pageQ limitQ : Option Nat) :
    ListResult :=
  let page := jsNumOr pageQ 1
  let limit := jsNumOr limitQ 20
  if limit > 100 then
    { status := 400, orders := [], pageInfo := none }
  else
    let startIndex := (page - 1) * limit
    let totalOrders := db.length
    { status := 200,
      orders := (db.drop startIndex).take limit,
      pageInfo := some
        { currentPage := page,
          totalPages := Nat.ceil ((totalOrders : ℚ) / (limit : ℚ)),
          totalOrders := totalOrders } }

/-- Sum over product items of resolved unit price times requested quantity,
phrased from the specification's formula. -/
def productTotal (env : Env) (items : List ReqItem) : Int :=
  (items.filterMap (fun it =>
    match truthyStr it.productId with
    | some pid =>
      some ((((env.products pid).bind ProductRec.price).getD 0) *
        (it.quantity.getD 0))
    | none => none)).sum

/-- Sum over service items (items with no product id and a service id) of
the resolved price, phrased from the specification's formula. -/
def serviceTotal (env : Env) (items : List ReqItem) : Int :=
  (items.filterMap (fun it =>
    match truthyStr it.productId with
    | some _ => none
    | none =>
      match truthyStr it.serviceId with
      | some sid => some (((env.services sid).bind ServiceRec.price).getD 0)
      | none => none)).sum

namespace P3

/-!
The loop-based `createOrder` variant of `src/unnamed/part_003`: items carry
an explicit `type` tag, products and services live in local collections,
stock is checked against the requested quantity and decremented in-loop
(before persistence), and every failure is an early `return` with status
400, leaving already-issued decrements in place.
-/

/-- Raw item of the part_003 request: `{type, itemID, quantity}`. -/
structure Item where
  type : Option String
  itemID : String
  quantity : Int
deriving Repr, DecidableEq

/-- Product document of the part_003 variant. -/
structure ProductDoc where
  name : String
  price : Int
  stock : Int
deriving Repr, DecidableEq

/-- Service document of the part_003 variant. -/
structure ServiceDoc where
  name : String
  price : Int
deriving Repr, DecidableEq

/-- Collections visible to the part_003 controller. -/
structure Env where
  products : String → Option ProductDoc
  services : String → Option ServiceDoc

/-- Persisted purchase document (`Purchase.create({items, totalPrice})`). -/
structure Purchase where
  items : List Item
  totalPrice : Int
deriving Repr, DecidableEq

/-- Outcome of one part_003 `createOrder` request: status, the purchase
collection afterwards and the stock decrements issued (`$inc {stock: -q}`),
in order. -/
structure Result where
  status : Nat
  db : List Purchase
  decrements : List (String × Int)
deriving Repr, DecidableEq

/-- The `for (const item of items)` loop (part_003:66-102): threads the
product collection (stock is decremented as soon as an item is accepted),
accumulates the total, and early-returns 400 at the first failing item.
Returns the decrements issued and either the failure status or the total. -/
def loop (env : Env) (prods : String → Option ProductDoc) :
    List Item → List (String × Int) × Except Nat Int
  | [] => ([], Except.ok 0)
  | it :: rest =>
    if it.type = some "product" then
      match prods it.itemID with
      | none => ([], Except.error 400)
      | some p =>
        if p.stock < it.quantity then ([], Except.error 400)
        else
          let prods' := fun pid =>
            if pid = it.itemID then some { p with stock := p.stock - it.quantity }
            else prods pid
          let (ds, r) := loop env prods' rest
          ((it.itemID, it.quantity) :: ds,
            match r with
            | Except.error e => Except.error e
            | Except.ok t => Except.ok (it.quantity * p.price + t))
    else if it.type = some "service" then
      match env.services it.itemID with
      | none => ([], Except.error 400)
      | some s =>
        let (ds, r) := loop env prods rest
        (ds,
          match r with
          | Except.error e => Except.error e
          | Except.ok t => Except.ok (it.quantity * s.price + t))
    else ([], Except.error 400)

/-- `exports.createOrder` of part_003 (part_003:56-113): 400 on a missing,
non-array or empty item list, then the validation/decrement loop, and only
after the whole loop succeeds is the purchase persisted. -/
def createOrder (env : Env) (db : List Purchase) (items : Option (List Item)) :
    Result :=
  match items with
  | none => { status := 400, db := db, decrements := [] }
  | some l =>
    if l.isEmpty then { status := 400, db := db, decrements := [] }
    else
      let (ds, r) := loop env env.products l
      match r with
      | Except.error s => { status := s, db := db, decrements := ds }
      | Except.ok total =>
        { status := 200, db := db ++ [{ items := l, totalPrice := total }],
          decrements := ds }

end P3

/-!
Concrete fixtures used by the witnesses and counterexamples below. They
mirror the concrete scenario of the specification (product "Widget" at
price 5 with stock 10, client "Ann", store "Shop").
-/

def envA : Env :=
  { clients := fun cid =>
      if cid = "c1" then some { name := "Ann", email := "a@x.com", phone := "555" }
      else none,
    stores := fun sid =>
      if sid = "s1" then some { id := "s1", name := "Shop", address := "1 Main St" }
      else none,
    products := fun pid =>
      if pid = "p1" then some { name := "Widget", price := some 5, stock := 10 }
      else none,
    services := fun sid =>
      if sid = "sv1" then some { name := "Wash", price := some 7 }
      else none,
    stockUpdateOk := fun _ => true }

/-- Same collaborators as `envA` but every stock-decrement call fails. -/
def envFail : Env := { envA with stockUpdateOk := fun _ => false }

def bodyA : CreateBody :=
  { items := some
      [{ productId := some "p1", serviceId := none, quantity := some 2 },
       { productId := none, serviceId := some "sv1", quantity := none }],
    clientId := some "c1", storeId := some "s1",
    paymentType := some "card", total := some 999 }

def itemsA : List ReqItem :=
  [{ productId := some "p1", serviceId := none, quantity := some 2 },
   { productId := none, serviceId := some "sv1", quantity := none }]

/-- The document `createOrder` persists for `bodyA` against `envA`, with
order number `n`. -/
def oA (n : Nat) : Order :=
  { items :=
      [{ productId := some "p1", serviceId := none, quantity := some 2,
         name := some "Widget", price := some 5 },
       { productId := none, serviceId := some "sv1", quantity := none,
         name := some "Wash", price := some 7 }],
    total := 17,
    client := some { id := "c1", name := "Ann", email := "a@x.com", phone := "555" },
    store := some { id := "s1", name := "Shop", address := "1 Main St" },
    paymentType := some "card",
    order_number := n }

/-- Creation body whose items field is an empty array. -/
def bodyEmpty : CreateBody :=
  { items := some [], clientId := some "c1", storeId := some "s1",
    paymentType := some "card", total := none }

/-- Creation body with a single service item. -/
def bodySvc : CreateBody :=
  { items := some [{ productId := none, serviceId := some "sv1", quantity := none }],
    clientId := some "c1", storeId := some "s1",
    paymentType := some "card", total := none }

/-- Creation body requesting 20 units of a product whose stock is 10. -/
def bodyExcess : CreateBody :=
  { items := some [{ productId := some "p1", serviceId := none, quantity := some 20 }],
    clientId := some "c1", storeId := some "s1",
    paymentType := some "card", total := none }

/-- A syntactically valid ObjectId (24 hex characters). -/
def oid24 : String := "aaaaaaaaaaaaaaaaaaaaaaaa"

/-- A pre-existing order document with total 10. -/
def oBase : Order :=
  { items := [], total := 10, client := none, store := none,
    paymentType := some "cash", order_number := 1 }

def dbOne : List (String × Order) := [(oid24, oBase)]

/-- Edit body carrying a caller-supplied total of 999 and an empty items
array (so the reconciliation fan-out trivially succeeds). -/
def bodyEditTotal : EditBody :=
  { items := some [], total := some 999, paymentType := none }

/-- Edit body with no items array at all. -/
def bodyEditNoItems : EditBody :=
  { items := none, total := some 5, paymentType := none }

/-- Edit body with one product item and one service item. -/
def bodyEdit2 : EditBody :=
  { items := some
      [{ productId := some "p1", serviceId := none, quantity := some 3 },
       { productId := none, serviceId := some "sv1", quantity := none }],
    total := none, paymentType := none }

/-- A store of 25 orders for the pagination witness. -/
def db25 : List (String × Order) :=
  (List.range 25).map (fun n =>
    (toString n,
     { items := [], total := 0, client := none, store := none,
       paymentType := some "cash", order_number := n }))

/-- part_003 environment: a product with stock 10 and one with stock 2. -/
def p3env : P3.Env :=
  { products := fun pid =>
      if pid = "p1" then some { name := "Widget", price := 5, stock := 10 }
      else if pid = "p2" then some { name := "Gadget", price := 3, stock := 2 }
      else none,
    services := fun _ => none }

/-- part_003 request: 2 units of the stock-10 product (accepted, so its
decrement is issued first), then 5 units of the stock-2 product (failing). -/
def p3items : List P3.Item :=
  [{ type := some "product", itemID := "p1", quantity := 2 },
   { type := some "product", itemID := "p2", quantity := 5 }]


section Lemmas

/-- Inversion of a successful `buildOrder`: the validation, the remote
resolutions and the shape of the assembled document. -/
lemma buildOrder_ok_inv (env : Env) (db : List (String × Order))
    (body : CreateBody) (o : Order) (calls : List Call)
    (h : buildOrder env db body = Except.ok (o, calls)) :
    ∃ l cid sid client store itemCalls ds t,
      body.items = some l ∧ l.isEmpty = false ∧
      truthyStr body.clientId = some cid ∧ truthyStr body.storeId = some sid ∧
      env.clients cid = some client ∧ env.stores sid = some store ∧
      resolveItems env l = (itemCalls, Except.ok (ds, t)) ∧
      o = { items := ds, total := t,
            client := some { id := cid, name := client.name,
                             email := client.email, phone := client.phone },
            store := some { id := store.id, name := store.name,
                            address := store.address },
            paymentType := body.paymentType,
            order_number := db.length + 1 } := by
  unfold buildOrder at h
  split at h
  · exact absurd h (by simp)
  · next l hl =>
    split at h
    · exact absurd h (by simp)
    · next hne =>
      split at h
      · next cid sid hcid hsid =>
        split at h
        · exact absurd h (by simp)
        · next client hclient =>
          split at h
          · exact absurd h (by simp)
          · next store hstore =>
            rcases hres : resolveItems env l with ⟨itemCalls, r⟩
            rw [hres] at h
            dsimp only at h
            match r with
            | Except.error () => simp at h
            | Except.ok (ds, t) =>
              refine ⟨l, cid, sid, client, store, itemCalls, ds, t, hl,
                by simpa using hne, hcid, hsid, hclient, hstore, hres, ?_⟩
              simp only [Except.ok.injEq, Prod.mk.injEq] at h
              exact h.1.symm
      · exact absurd h (by simp)

/-- Inversion of `createOrder` having persisted a document: the build phase
succeeded and the mongoose validation on save passed. -/
lemma createOrder_saved_inv (env : Env) (db : List (String × Order))
    (body : CreateBody) (newId : String) (o : Order)
    (h : (createOrder env db body newId).savedOrder = some o) :
    ∃ calls, buildOrder env db body = Except.ok (o, calls) ∧ saveOk db o = true := by
  unfold createOrder at h
  split at h
  · exact absurd h (by simp)
  · next o' calls heq =>
    by_cases hs : saveOk db o'
    · rw [if_pos hs] at h
      simp only [Option.some.injEq] at h
      exact ⟨calls, h ▸ heq, h ▸ hs⟩
    · rw [if_neg hs] at h
      exact absurd h (by simp)

/-- On the persisted path, `createOrder`'s response fields. -/
lemma createOrder_saved_shape (env : Env) (db : List (String × Order))
    (body : CreateBody) (newId : String) (o : Order)
    (h : (createOrder env db body newId).savedOrder = some o) :
    (createOrder env db body newId).db = db ++ [(newId, o)] ∧
    (createOrder env db body newId).stockCalls = stockCallsOf o.items ∧
    (createOrder env db body newId).status =
      (if stockAllOk env o.items then 200 else 500) := by
  obtain ⟨calls, hb, hs⟩ := createOrder_saved_inv env db body newId o h
  unfold createOrder
  rw [hb]
  dsimp only
  rw [if_pos hs]
  exact ⟨rfl, rfl, rfl⟩

/-- A successful sequential resolution prices the list at the
specification's formula: product subtotals plus service subtotals. -/
lemma resolveItems_ok_total (env : Env) : ∀ (l : List ReqItem)
    (cs : List Call) (ds : List OrderItem) (t : Int),
    resolveItems env l = (cs, Except.ok (ds, t)) →
    t = productTotal env l + serviceTotal env l := by
  intro l
  induction l with
  | nil =>
    intro cs ds t h
    simp only [resolveItems, Prod.mk.injEq, Except.ok.injEq] at h
    simp [productTotal, serviceTotal, ← h.2.2]
  | cons it rest ih =>
    intro cs ds t h
    simp only [resolveItems] at h
    rcases hri : resolveItem env it with ⟨cs₁, r₁⟩
    rw [hri] at h
    match r₁ with
    | Except.error () => simp at h
    | Except.ok (d, sub) =>
      simp only at h
      rcases hrest : resolveItems env rest with ⟨cs₂, r₂⟩
      rw [hrest] at h
      match r₂ with
      | Except.error () => simp at h
      | Except.ok (ds₂, t₂) =>
        simp only [Prod.mk.injEq, Except.ok.injEq] at h
        obtain ⟨-, -, ht⟩ := h
        have ht₂ : t₂ = productTotal env rest + serviceTotal env rest :=
          ih cs₂ ds₂ t₂ (by rw [hrest])
        -- analyse which branch priced the head item
        unfold resolveItem at hri
        split at hri
        · next pid hpid =>
          match hp : env.products pid with
          | none => simp [hp] at hri
          | some p =>
            simp only [hp] at hri
            match hprice : p.price with
            | none => simp [hprice] at hri
            | some price =>
              simp only [hprice] at hri
              match hq : it.quantity with
              | none => simp [hq] at hri
              | some q =>
                simp only [hq] at hri
                split at hri
                · simp at hri
                · simp only [Prod.mk.injEq, Except.ok.injEq] at hri
                  obtain ⟨-, -, hsub⟩ := hri
                  subst ht₂
                  rw [← ht, ← hsub]
                  simp [productTotal, serviceTotal, List.filterMap_cons,
                    hpid, hp, hq, hprice]
                  try ring
        · next hpid =>
          split at hri
          · next sid hsid =>
            match hs : env.services sid with
            | none => simp [hs] at hri
            | some s =>
              simp only [hs] at hri
              match hprice : s.price with
              | none => simp [hprice] at hri
              | some price =>
                simp only [hprice] at hri
                simp only [Prod.mk.injEq, Except.ok.injEq] at hri
                obtain ⟨-, -, hsub⟩ := hri
                subst ht₂
                rw [← ht, ← hsub]
                simp [productTotal, serviceTotal, List.filterMap_cons,
                  hpid, hsid, hs, hprice]
                try ring
          · simp at hri

end Lemmas

/-- Claim C1: for every order-creation request whose items all resolve
successfully (the document was persisted), the total stored on the created
order equals the sum over product items of resolved price times requested
quantity, plus the sum over service items of resolved price. -/
theorem c1_created_total (env : Env) (db : List (String × Order))
    (body : CreateBody) (newId : String) (l : List ReqItem) (o : Order)
    (hitems : body.items = some l)
    (h : (createOrder env db body newId).savedOrder = some o) :
    o.total = productTotal env l + serviceTotal env l := by
  obtain ⟨calls, hb, -⟩ := createOrder_saved_inv env db body newId o h
  obtain ⟨l', cid, sid, client, store, itemCalls, ds, t, hl', -, -, -, -, -, hres, ho⟩ :=
    buildOrder_ok_inv env db body o calls hb
  have hll : l' = l := by rw [hitems] at hl'; exact (Option.some.injEq _ _ ▸ hl').symm
  subst hll
  subst ho
  exact resolveItems_ok_total env l' itemCalls ds t hres

/-- Claim C1 witness: the specification's concrete scenario plus a service
item; the persisted total is 5·2 + 7 = 17. -/
theorem c1_created_total_witness :
    bodyA.items = some itemsA ∧
    (createOrder envA [] bodyA "n1").savedOrder = some (oA 1) ∧
    (oA 1).total = productTotal envA itemsA + serviceTotal envA itemsA :=
  ⟨rfl, by decide, c1_created_total envA [] bodyA "n1" itemsA (oA 1) rfl (by decide)⟩

/-- Claim C6: for every successful creation (single-writer scenario: the
store is unchanged between the count and the save), the orderNumber
assigned to the new order equals the store's order count read immediately
before assembly, plus one. -/
theorem c6_order_number (env : Env) (db : List (String × Order))
    (body : CreateBody) (newId : String) (o : Order)
    (h : (createOrder env db body newId).savedOrder = some o) :
    o.order_number = db.length + 1 := by
  obtain ⟨calls, hb, -⟩ := createOrder_saved_inv env db body newId o h
  obtain ⟨l, cid, sid, client, store, itemCalls, ds, t, -, -, -, -, -, -, -, ho⟩ :=
    buildOrder_ok_inv env db body o calls hb
  rw [ho]

/-- Claim C6 witness: creating against a store that already holds one order
assigns order number 2. -/
theorem c6_order_number_witness :
    (createOrder envA dbOne bodyA "n1").savedOrder = some (oA 2) ∧
    (oA 2).order_number = dbOne.length + 1 :=
  ⟨by decide, c6_order_number envA dbOne bodyA "n1" (oA 2) (by decide)⟩

/-- Claim C2 (amended): a creation request with a missing, non-array or
empty items list is answered with status 500 (the validation throw is
caught by the generic handler, not mapped to 400), and no store operation
and no remote call is performed. -/
theorem c2_empty_items (env : Env) (db : List (String × Order))
    (body : CreateBody) (newId : String)
    (h : body.items = none ∨ body.items = some []) :
    (createOrder env db body newId).status = 500 ∧
    (createOrder env db body newId).db = db ∧
    (createOrder env db body newId).resolveCalls = [] ∧
    (createOrder env db body newId).stockCalls = [] ∧
    (createOrder env db body newId).storeOps = [] ∧
    (createOrder env db body newId).savedOrder = none := by
  have hb : buildOrder env db body = Except.error [] := by
    rcases h with h | h <;> simp [buildOrder, h]
  unfold createOrder
  rw [hb]
  exact ⟨rfl, rfl, rfl, rfl, rfl, rfl⟩

/-- Claim C2 witness: an empty items array yields 500 with no store
operation and no remote call. -/
theorem c2_empty_items_witness :
    (createOrder envA [] bodyEmpty "n1").status = 500 ∧
    (createOrder envA [] bodyEmpty "n1").db = [] ∧
    (createOrder envA [] bodyEmpty "n1").resolveCalls = [] ∧
    (createOrder envA [] bodyEmpty "n1").stockCalls = [] ∧
    (createOrder envA [] bodyEmpty "n1").storeOps = [] ∧
    (createOrder envA [] bodyEmpty "n1").savedOrder = none :=
  c2_empty_items envA [] bodyEmpty "n1" (Or.inr rfl)

/-- Claim C2 counterexample: on an empty items array the response status is
500, not the HTTP 400 the claim asserts. -/
theorem c2_counterexample :
    (createOrder envA [] bodyEmpty "n1").status = 500 ∧
    ¬ (createOrder envA [] bodyEmpty "n1").status = 400 := by
  decide

/-- Claim C5: if the order document was persisted and at least one stock
update fails, the whole operation is reported as failed (HTTP 500) while
the already-saved order remains in the store, uncompensated. -/
theorem c5_persist_uncompensated (env : Env) (db : List (String × Order))
    (body : CreateBody) (newId : String) (o : Order) (pid : String)
    (hsave : (createOrder env db body newId).savedOrder = some o)
    (hmem : ∃ d ∈ o.items, truthyStr d.productId = some pid)
    (hfail : env.stockUpdateOk pid = false) :
    (createOrder env db body newId).status = 500 ∧
    (newId, o) ∈ (createOrder env db body newId).db := by
  rcases hmem with ⟨d, hd, hpd⟩
  obtain ⟨hdb, -, hstatus⟩ := createOrder_saved_shape env db body newId o hsave
  have hall : stockAllOk env o.items = false := by
    cases hall : stockAllOk env o.items with
    | false => rfl
    | true =>
      have hact := List.all_eq_true.mp hall d hd
      simp only [hpd] at hact
      rw [hact] at hfail
      cases hfail
  constructor
  · rw [hstatus]; simp [hall]
  · rw [hdb]; simp

/-- Claim C5 witness: with every stock call failing, the creation reports
500 but the order is persisted. -/
theorem c5_persist_uncompensated_witness :
    (createOrder envFail [] bodyA "n1").status = 500 ∧
    ("n1", oA 1) ∈ (createOrder envFail [] bodyA "n1").db :=
  c5_persist_uncompensated envFail [] bodyA "n1" (oA 1) "p1" (by decide)
    ⟨{ productId := some "p1", serviceId := none, quantity := some 2,
       name := some "Widget", price := some 5 }, by decide, by decide⟩ (by decide)

/-- The reconciliation fan-out issues its calls item by item, whatever the
joint await's outcome: exactly one stock decrement with `quantity || 1` per
product item, one service confirmation read per service item, and no call
for an item carrying neither id. -/
lemma editReconcile_calls (env : Env) : ∀ (l : List ReqItem) (cs : List Call)
    (ok : Bool),
    editReconcile env l = (cs, ok) →
    cs = l.filterMap (fun it =>
      match truthyStr it.productId with
      | some pid => some (Call.putStock pid (jsOr1 it.quantity))
      | none => (truthyStr it.serviceId).map Call.getService) := by
  intro l
  induction l with
  | nil =>
    intro cs ok h
    simp only [editReconcile, Prod.mk.injEq] at h
    exact h.1.symm
  | cons it rest ih =>
    intro cs ok h
    simp only [editReconcile] at h
    rcases hr : editReconcile env rest with ⟨cs', ok'⟩
    rw [hr] at h
    dsimp only at h
    match hpid : truthyStr it.productId with
    | some pid =>
      simp only [hpid] at h
      rcases Prod.mk.injEq .. ▸ h with ⟨hcs, -⟩
      rw [← hcs, List.filterMap_cons]
      simp only [hpid]
      rw [ih cs' ok' hr]
    | none =>
      match hsid : truthyStr it.serviceId with
      | some sid =>
        simp only [hpid, hsid] at h
        rcases Prod.mk.injEq .. ▸ h with ⟨hcs, -⟩
        rw [← hcs, List.filterMap_cons]
        simp only [hpid, hsid]
        rw [ih cs' ok' hr]
        simp
      | none =>
        simp only [hpid, hsid] at h
        rcases Prod.mk.injEq .. ▸ h with ⟨hcs, -⟩
        rw [← hcs, List.filterMap_cons]
        simp only [hpid, hsid]
        simpa using ih cs' ok' hr

/-- When the target order exists, `editOrder` overwrites it with the patch
before looking at the body's item list, whatever the final status is. -/
lemma editOrder_found (env : Env) (db : List (String × Order)) (i : String)
    (body : EditBody) (o : Order)
    (hvalid : isValidObjectId i = true) (hfind : dbLookup db i = some o) :
    (editOrder env db (some i) body).db = dbUpdate db i (applyPatch o body) ∧
    (editOrder env db (some i) body).updatedOrder = some (applyPatch o body) := by
  have hne : i ≠ "" := by
    intro he
    subst he
    simp [isValidObjectId] at hvalid
  have hid : truthyStr (some i) = some i := by simp [truthyStr, hne]
  cases hbi : body.items with
  | none => constructor <;> simp [editOrder, hid, hvalid, hfind, hbi]
  | some items =>
    rcases hrec : editReconcile env items with ⟨cs, ok⟩
    constructor <;> simp [editOrder, hid, hvalid, hfind, hbi, hrec]

/-- Updating the entry under a present key makes lookups return the new
document. -/
lemma dbLookup_dbUpdate (db : List (String × Order)) (i : String) (o o' : Order)
    (h : dbLookup db i = some o) :
    dbLookup (dbUpdate db i o') i = some o' := by
  induction db with
  | nil => simp [dbLookup] at h
  | cons hd tl ih =>
    by_cases hk : hd.1 = i
    · simp [dbLookup, dbUpdate, hk]
    · have h' : dbLookup tl i = some o := by
        simpa [dbLookup, List.find?_cons, hk] using h
      simpa [dbLookup, dbUpdate, hk] using ih h'

/-- Claim C7 (amended): whenever reconciliation is reached, every product
item triggers exactly one stock-decrement call carrying `quantity || 1` —
in creation once the order is persisted, and in edit whether or not the
joint await subsequently fails; a confirmation/read call to the services
catalog is issued for service items only by `editOrder`, while `createOrder`
issues no call at all for service items (and an item with neither id
triggers no call). -/
theorem c7_reconcile_fanout (env : Env) :
    (∀ (db : List (String × Order)) (body : CreateBody) (newId : String) (o : Order),
      (createOrder env db body newId).savedOrder = some o →
      (createOrder env db body newId).stockCalls =
        o.items.filterMap (fun d => (truthyStr d.productId).map
          (fun pid => Call.putStock pid (jsOr1 d.quantity)))) ∧
    (∀ (db : List (String × Order)) (i : String) (body : EditBody)
        (l : List ReqItem) (o : Order),
      isValidObjectId i = true → dbLookup db i = some o → body.items = some l →
      (editOrder env db (some i) body).stockCalls =
        l.filterMap (fun it =>
          match truthyStr it.productId with
          | some pid => some (Call.putStock pid (jsOr1 it.quantity))
          | none => (truthyStr it.serviceId).map Call.getService)) := by
  constructor
  · intro db body newId o h
    obtain ⟨-, hsc, -⟩ := createOrder_saved_shape env db body newId o h
    rw [hsc]
    rfl
  · intro db i body l o hvalid hfind hbi
    have hne : i ≠ "" := by
      intro he
      subst he
      simp [isValidObjectId] at hvalid
    have hid : truthyStr (some i) = some i := by simp [truthyStr, hne]
    rcases hrec : editReconcile env l with ⟨cs, ok⟩
    have hsc : (editOrder env db (some i) body).stockCalls = cs := by
      simp [editOrder, hid, hvalid, hfind, hbi, hrec]
    rw [hsc]
    exact editReconcile_calls env l cs ok hrec

/-- Claim C7 witness: creation issues the stock decrement for the product
item (quantity 2); an edit with a product and a service item against an
environment whose stock calls all fail still issues one decrement and one
service confirmation even though the joint await fails (status 500). -/
theorem c7_reconcile_fanout_witness :
    ((createOrder envA [] bodyA "n1").stockCalls =
      (oA 1).items.filterMap (fun d => (truthyStr d.productId).map
        (fun pid => Call.putStock pid (jsOr1 d.quantity)))) ∧
    ((editOrder envFail dbOne (some oid24) bodyEdit2).status = 500 ∧
     (editOrder envFail dbOne (some oid24) bodyEdit2).stockCalls =
      ([{ productId := some "p1", serviceId := none, quantity := some 3 },
        { productId := none, serviceId := some "sv1", quantity := none }] :
          List ReqItem).filterMap
        (fun it =>
          match truthyStr it.productId with
          | some pid => some (Call.putStock pid (jsOr1 it.quantity))
          | none => (truthyStr it.serviceId).map Call.getService)) :=
  ⟨(c7_reconcile_fanout envA).1 [] bodyA "n1" (oA 1) (by decide),
   by decide,
   (c7_reconcile_fanout envFail).2 dbOne oid24 bodyEdit2
     ([{ productId := some "p1", serviceId := none, quantity := some 3 },
       { productId := none, serviceId := some "sv1", quantity := none }] :
         List ReqItem)
     oBase (by decide) (by decide) rfl⟩

/-- Claim C7 counterexample: a successful creation containing a service
item issues no reconciliation call at all, refuting the claim that every
service item triggers a confirmation/read call to the services catalog
during reconciliation of a created order. -/
theorem c7_counterexample :
    bodySvc.items =
      some [{ productId := none, serviceId := some "sv1", quantity := none }] ∧
    (createOrder envA [] bodySvc "n1").status = 200 ∧
    (createOrder envA [] bodySvc "n1").savedOrder.isSome = true ∧
    (createOrder envA [] bodySvc "n1").stockCalls = [] := by
  decide

/-- Claim C8 (amended): `ReadOrder` and `RemoveOrder` validate the id
syntactically before querying and answer 400 on a malformed id without
touching the store; `editOrder` only rejects a missing id, so a malformed
non-empty id reaches the store lookup and produces a 500 server error. -/
theorem c8_id_validation (env : Env) (db : List (String × Order))
    (body : EditBody) (id : String)
    (h : isValidObjectId id = false) :
    (ReadOrder db id).status = 400 ∧
    (RemoveOrder db id).status = 400 ∧
    (RemoveOrder db id).db = db ∧
    (id ≠ "" → (editOrder env db (some id) body).status = 500) := by
  refine ⟨by simp [ReadOrder, h], by simp [RemoveOrder, h], by simp [RemoveOrder, h], ?_⟩
  intro hne
  simp [editOrder, truthyStr, hne, h]

/-- Claim C8 witness: the malformed id "abc" gives 400 on read and delete
and 500 on edit. -/
theorem c8_id_validation_witness :
    (ReadOrder dbOne "abc").status = 400 ∧
    (RemoveOrder dbOne "abc").status = 400 ∧
    (RemoveOrder dbOne "abc").db = dbOne ∧
    (editOrder envA dbOne (some "abc") bodyEditTotal).status = 500 := by
  have h := c8_id_validation envA dbOne bodyEditTotal "abc" (by decide)
  exact ⟨h.1, h.2.1, h.2.2.1, h.2.2.2 (by decide)⟩

/-- Claim C8 counterexample: on the malformed id "abc" the edit handler
does not answer with a client error 400 — the store lookup throws and the
handler answers 500, a server error. -/
theorem c8_counterexample :
    isValidObjectId "abc" = false ∧
    (editOrder envA dbOne (some "abc") bodyEditTotal).status = 500 ∧
    ¬ (editOrder envA dbOne (some "abc") bodyEditTotal).status = 400 := by
  decide

/-- Claim C9: a list request with limit above 100 is rejected with a
validation error (400, nothing truncated); an accepted limit returns the
slice starting at `(page-1)*limit` of length at most `limit`, and
`totalPages` is the ceiling of `totalOrders / limit`. -/
theorem c9_pagination (db : List (String × Order)) (pageQ limitQ : Option Nat) :
    (jsNumOr limitQ 20 > 100 →
      (ReadOrders db pageQ limitQ).status = 400 ∧
      (ReadOrders db pageQ limitQ).orders = []) ∧
    (jsNumOr limitQ 20 ≤ 100 →
      (ReadOrders db pageQ limitQ).status = 200 ∧
      (ReadOrders db pageQ limitQ).orders =
        (db.drop ((jsNumOr pageQ 1 - 1) * jsNumOr limitQ 20)).take (jsNumOr limitQ 20) ∧
      (ReadOrders db pageQ limitQ).orders.length ≤ jsNumOr limitQ 20 ∧
      (ReadOrders db pageQ limitQ).pageInfo = some
        { currentPage := jsNumOr pageQ 1,
          totalPages := Nat.ceil ((db.length : ℚ) / (jsNumOr limitQ 20 : ℚ)),
          totalOrders := db.length }) := by
  constructor
  · intro hgt
    unfold ReadOrders
    rw [if_pos hgt]
    exact ⟨rfl, rfl⟩
  · intro hle
    have hngt : ¬ jsNumOr limitQ 20 > 100 := by omega
    unfold ReadOrders
    rw [if_neg hngt]
    refine ⟨rfl, rfl, ?_, rfl⟩
    rw [List.length_take]
    exact min_le_left _ _

/-- Claim C9 witness: limit 150 is rejected; page 2 with limit 10 on a
25-order store returns the second slice of ten with 3 total pages. -/
theorem c9_pagination_witness :
    ((ReadOrders db25 (some 2) (some 150)).status = 400 ∧
     (ReadOrders db25 (some 2) (some 150)).orders = []) ∧
    ((ReadOrders db25 (some 2) (some 10)).status = 200 ∧
     (ReadOrders db25 (some 2) (some 10)).orders =
       (db25.drop ((jsNumOr (some 2) 1 - 1) * jsNumOr (some 10) 20)).take
         (jsNumOr (some 10) 20) ∧
     (ReadOrders db25 (some 2) (some 10)).orders.length ≤ jsNumOr (some 10) 20 ∧
     (ReadOrders db25 (some 2) (some 10)).pageInfo = some
       { currentPage := jsNumOr (some 2) 1,
         totalPages := Nat.ceil ((db25.length : ℚ) / (jsNumOr (some 10) 20 : ℚ)),
         totalOrders := db25.length }) :=
  ⟨(c9_pagination db25 (some 2) (some 150)).1 (by decide),
   (c9_pagination db25 (some 2) (some 10)).2 (by decide)⟩

/-- Claim C10: an edit request on an existing order whose body has no items
array is answered 500, yet the stored document has already been overwritten
with the supplied patch before the failure. -/
theorem c10_edit_overwrites_before_failure (env : Env)
    (db : List (String × Order)) (i : String) (body : EditBody) (o : Order)
    (hvalid : isValidObjectId i = true)
    (hfind : dbLookup db i = some o)
    (hitems : body.items = none) :
    (editOrder env db (some i) body).status = 500 ∧
    (editOrder env db (some i) body).updatedOrder = some (applyPatch o body) ∧
    dbLookup (editOrder env db (some i) body).db i = some (applyPatch o body) := by
  obtain ⟨hdb, hupd⟩ := editOrder_found env db i body o hvalid hfind
  have hne : i ≠ "" := by
    intro he
    subst he
    simp [isValidObjectId] at hvalid
  have hid : truthyStr (some i) = some i := by simp [truthyStr, hne]
  refine ⟨?_, hupd, ?_⟩
  · simp [editOrder, hid, hvalid, hfind, hitems]
  · rw [hdb]
    exact dbLookup_dbUpdate db i o (applyPatch o body) hfind

/-- Claim C10 witness: editing the stored order with a body carrying only a
total and no items array yields 500 while the stored document now carries
the patched total 5. -/
theorem c10_edit_overwrites_witness :
    (editOrder envA dbOne (some oid24) bodyEditNoItems).status = 500 ∧
    (editOrder envA dbOne (some oid24) bodyEditNoItems).updatedOrder =
      some (applyPatch oBase bodyEditNoItems) ∧
    dbLookup (editOrder envA dbOne (some oid24) bodyEditNoItems).db oid24 =
      some (applyPatch oBase bodyEditNoItems) :=
  c10_edit_overwrites_before_failure envA dbOne oid24 bodyEditNoItems oBase
    (by decide) (by decide) rfl

/-- Claim C4 (amended): on creation the stored total is computed
server-side — the response and stored document are the same whatever total
the caller supplies; on edit the request body is applied verbatim, so a
caller-supplied total replaces the stored one. -/
theorem c4_total_provenance (env : Env) :
    (∀ (db : List (String × Order)) (body : CreateBody) (newId : String) (t : Int),
      createOrder env db { body with total := some t } newId =
        createOrder env db { body with total := none } newId) ∧
    (∀ (db : List (String × Order)) (i : String) (o : Order) (body : EditBody)
        (t : Int),
      isValidObjectId i = true → dbLookup db i = some o → body.total = some t →
      ∃ o', (editOrder env db (some i) body).updatedOrder = some o' ∧
        o'.total = t ∧
        dbLookup (editOrder env db (some i) body).db i = some o') := by
  constructor
  · intro db body newId t
    cases body
    rfl
  · intro db i o body t hvalid hfind htot
    obtain ⟨hdb, hupd⟩ := editOrder_found env db i body o hvalid hfind
    refine ⟨applyPatch o body, hupd, ?_, ?_⟩
    · simp [applyPatch, htot]
    · rw [hdb]
      exact dbLookup_dbUpdate db i o (applyPatch o body) hfind

/-- Claim C4 witness: creation ignores the caller total; an edit carrying
total 999 stores 999. -/
theorem c4_total_provenance_witness :
    (createOrder envA [] { bodyA with total := some 123 } "n1" =
      createOrder envA [] { bodyA with total := none } "n1") ∧
    ∃ o', (editOrder envA dbOne (some oid24) bodyEditTotal).updatedOrder = some o' ∧
      o'.total = 999 ∧
      dbLookup (editOrder envA dbOne (some oid24) bodyEditTotal).db oid24 = some o' :=
  ⟨(c4_total_provenance envA).1 [] bodyA "n1" 123,
   (c4_total_provenance envA).2 dbOne oid24 oBase bodyEditTotal 999
     (by decide) (by decide) rfl⟩

/-- Claim C4 counterexample: the edit succeeds (200) and the stored total
becomes the caller-supplied 999 — the stored total of an edit is taken from
the request body, not computed server-side. -/
theorem c4_counterexample :
    oBase.total = 10 ∧
    (editOrder envA dbOne (some oid24) bodyEditTotal).status = 200 ∧
    (dbLookup (editOrder envA dbOne (some oid24) bodyEditTotal).db oid24).map
      Order.total = some 999 := by
  decide

/-- If some item of the list is a product whose initially resolved stock is
below its (positive) requested quantity, the part_003 loop fails with 400:
threaded stocks only decrease, so the offending item cannot pass its stock
check, and every failure in the loop is an early 400 return. -/
lemma P3.loop_insufficient (env : P3.Env) : ∀ (l : List P3.Item)
    (prods : String → Option P3.ProductDoc),
    (∀ pid p, env.products pid = some p →
      ∃ p', prods pid = some p' ∧ p'.stock ≤ p.stock) →
    (∀ it ∈ l, 0 < it.quantity) →
    (∃ it ∈ l, it.type = some "product" ∧
      ∃ p, env.products it.itemID = some p ∧ p.stock < it.quantity) →
    ∃ ds, P3.loop env prods l = (ds, Except.error 400) := by
  intro l
  induction l with
  | nil =>
    intro prods hinv hpos hbad
    rcases hbad with ⟨it, hmem, -⟩
    simp at hmem
  | cons it rest ih =>
    intro prods hinv hpos hbad
    by_cases hty : it.type = some "product"
    · match hp : prods it.itemID with
      | none => exact ⟨[], by simp [P3.loop, hty, hp]⟩
      | some p =>
        by_cases hstock : p.stock < it.quantity
        · exact ⟨[], by simp [P3.loop, hty, hp, hstock]⟩
        · have hbad' : ∃ it' ∈ rest, it'.type = some "product" ∧
              ∃ p', env.products it'.itemID = some p' ∧ p'.stock < it'.quantity := by
            rcases hbad with ⟨it', hmem, hty', p', hp', hlt⟩
            rcases List.mem_cons.mp hmem with rfl | hmem'
            · rcases hinv it'.itemID p' hp' with ⟨p'', hp'', hle⟩
              rw [hp] at hp''
              have hpp : p = p'' := by injection hp''
              subst hpp
              omega
            · exact ⟨it', hmem', hty', p', hp', hlt⟩
          have hq : 0 < it.quantity := hpos it (List.mem_cons_self _ _)
          have hinv' : ∀ pid p₀, env.products pid = some p₀ →
              ∃ p₁, (fun pid' =>
                if pid' = it.itemID then some { p with stock := p.stock - it.quantity }
                else prods pid') pid = some p₁ ∧ p₁.stock ≤ p₀.stock := by
            intro pid p₀ hbase
            rcases hinv pid p₀ hbase with ⟨p₁, hp₁, hle⟩
            by_cases hpid : pid = it.itemID
            · subst hpid
              rw [hp] at hp₁
              have hpp : p = p₁ := by injection hp₁
              subst hpp
              refine ⟨{ p with stock := p.stock - it.quantity }, by simp, ?_⟩
              simp only
              omega
            · exact ⟨p₁, by simp [hpid, hp₁], hle⟩
          have hposr : ∀ it' ∈ rest, 0 < it'.quantity :=
            fun it' h' => hpos it' (List.mem_cons_of_mem _ h')
          rcases ih _ hinv' hposr hbad' with ⟨ds, hds⟩
          exact ⟨(it.itemID, it.quantity) :: ds,
            by simp [P3.loop, hty, hp, hstock, hds]⟩
    · by_cases htys : it.type = some "service"
      · match hs : env.services it.itemID with
        | none => exact ⟨[], by simp [P3.loop, hty, htys, hs]⟩
        | some s =>
          have hbad' : ∃ it' ∈ rest, it'.type = some "product" ∧
              ∃ p', env.products it'.itemID = some p' ∧ p'.stock < it'.quantity := by
            rcases hbad with ⟨it', hmem, hty', p', hp', hlt⟩
            rcases List.mem_cons.mp hmem with rfl | hmem'
            · exact absurd hty' hty
            · exact ⟨it', hmem', hty', p', hp', hlt⟩
          have hposr : ∀ it' ∈ rest, 0 < it'.quantity :=
            fun it' h' => hpos it' (List.mem_cons_of_mem _ h')
          rcases ih prods hinv hposr hbad' with ⟨ds, hds⟩
          exact ⟨ds, by simp [P3.loop, hty, htys, hs, hds]⟩
      · exact ⟨[], by simp [P3.loop, hty, htys]⟩

/-- Whenever the part_003 loop fails, the decrements it issued are exactly
those of the product items strictly before the failing item: the list
splits at a failing item, no decrement is issued for it or anything after
it, and the decrements of the earlier accepted prefix are retained. -/
lemma P3.loop_error_decrements (env : P3.Env) : ∀ (l : List P3.Item)
    (prods : String → Option P3.ProductDoc) (ds : List (String × Int)) (e : Nat),
    P3.loop env prods l = (ds, Except.error e) →
    ∃ l₁ itf l₂, l = l₁ ++ itf :: l₂ ∧
      ds = l₁.filterMap (fun it =>
        if it.type = some "product" then some (it.itemID, it.quantity)
        else none) := by
  intro l
  induction l with
  | nil =>
    intro prods ds e h
    simp [P3.loop] at h
  | cons it rest ih =>
    intro prods ds e h
    by_cases hty : it.type = some "product"
    · match hp : prods it.itemID with
      | none =>
        have hstep : P3.loop env prods (it :: rest) = ([], Except.error 400) := by
          simp [P3.loop, hty, hp]
        rw [hstep] at h
        simp only [Prod.mk.injEq] at h
        exact ⟨[], it, rest, rfl, h.1.symm⟩
      | some p =>
        by_cases hstock : p.stock < it.quantity
        · have hstep : P3.loop env prods (it :: rest) = ([], Except.error 400) := by
            simp [P3.loop, hty, hp, hstock]
          rw [hstep] at h
          simp only [Prod.mk.injEq] at h
          exact ⟨[], it, rest, rfl, h.1.symm⟩
        · rcases hl : P3.loop env (fun pid =>
              if pid = it.itemID then some { p with stock := p.stock - it.quantity }
              else prods pid) rest with ⟨ds', r⟩
          have hstep : P3.loop env prods (it :: rest) =
              ((it.itemID, it.quantity) :: ds',
                match r with
                | Except.error e' => Except.error e'
                | Except.ok t => Except.ok (it.quantity * p.price + t)) := by
            simp [P3.loop, hty, hp, hstock, hl]
            cases r <;> rfl
          match r with
          | Except.ok t =>
            rw [hstep] at h
            simp at h
          | Except.error e' =>
            rw [hstep] at h
            simp only [Prod.mk.injEq, Except.error.injEq] at h
            obtain ⟨hds, -⟩ := h
            rcases ih _ ds' e' hl with ⟨l₁, itf, l₂, hsplit, hds'⟩
            refine ⟨it :: l₁, itf, l₂, by rw [hsplit]; rfl, ?_⟩
            rw [← hds, hds']
            simp [List.filterMap_cons, hty]
    · by_cases htys : it.type = some "service"
      · match hs : env.services it.itemID with
        | none =>
          have hstep : P3.loop env prods (it :: rest) = ([], Except.error 400) := by
            simp [P3.loop, hty, htys, hs]
          rw [hstep] at h
          simp only [Prod.mk.injEq] at h
          exact ⟨[], it, rest, rfl, h.1.symm⟩
        | some sv =>
          rcases hl : P3.loop env prods rest with ⟨ds', r⟩
          have hstep : P3.loop env prods (it :: rest) =
              (ds',
                match r with
                | Except.error e' => Except.error e'
                | Except.ok t => Except.ok (it.quantity * sv.price + t)) := by
            simp [P3.loop, hty, htys, hs, hl]
            cases r <;> rfl
          match r with
          | Except.ok t =>
            rw [hstep] at h
            simp at h
          | Except.error e' =>
            rw [hstep] at h
            simp only [Prod.mk.injEq, Except.error.injEq] at h
            obtain ⟨hds, -⟩ := h
            rcases ih prods ds' e' hl with ⟨l₁, itf, l₂, hsplit, hds'⟩
            refine ⟨it :: l₁, itf, l₂, by rw [hsplit]; rfl, ?_⟩
            rw [← hds, hds']
            simp [List.filterMap_cons, hty]
      · have hstep : P3.loop env prods (it :: rest) = ([], Except.error 400) := by
          simp [P3.loop, hty, htys]
        rw [hstep] at h
        simp only [Prod.mk.injEq] at h
        exact ⟨[], it, rest, rfl, h.1.symm⟩

/-- Claim C3 (amended): in the part_003 variant, a creation request with
positive quantities containing a product item whose quantity exceeds the
resolved stock fails with a 400 insufficient-stock error and persists no
purchase; no stock decrement is issued for the failing item or anything
after it — and none at all when the failing item comes first — though
decrements already issued for earlier accepted items are not rolled back.
(The main controller performs no stock check at all; see the
counterexample.) -/
theorem c3_insufficient_stock (env : P3.Env) (db : List P3.Purchase)
    (l : List P3.Item)
    (hpos : ∀ it ∈ l, 0 < it.quantity)
    (hbad : ∃ it ∈ l, it.type = some "product" ∧
      ∃ p, env.products it.itemID = some p ∧ p.stock < it.quantity) :
    (P3.createOrder env db (some l)).status = 400 ∧
    (P3.createOrder env db (some l)).db = db ∧
    (∃ l₁ itf l₂, l = l₁ ++ itf :: l₂ ∧
      (P3.createOrder env db (some l)).decrements =
        l₁.filterMap (fun it =>
          if it.type = some "product" then some (it.itemID, it.quantity)
          else none)) ∧
    (∀ it₀ rest, l = it₀ :: rest → it₀.type = some "product" →
      (∃ p, env.products it₀.itemID = some p ∧ p.stock < it₀.quantity) →
      (P3.createOrder env db (some l)).decrements = []) := by
  have hne : l.isEmpty = false := by
    rcases hbad with ⟨it, hmem, -⟩
    cases l
    · simp at hmem
    · rfl
  have hbase : ∀ pid p, env.products pid = some p →
      ∃ p', env.products pid = some p' ∧ p'.stock ≤ p.stock :=
    fun pid p h => ⟨p, h, le_refl _⟩
  rcases P3.loop_insufficient env l env.products hbase hpos hbad with ⟨ds, hds⟩
  refine ⟨?_, ?_, ?_, ?_⟩
  · simp [P3.createOrder, hne, hds]
  · simp [P3.createOrder, hne, hds]
  · rcases P3.loop_error_decrements env l env.products ds 400 hds with
      ⟨l₁, itf, l₂, hsplit, hds'⟩
    refine ⟨l₁, itf, l₂, hsplit, ?_⟩
    have hdec : (P3.createOrder env db (some l)).decrements = ds := by
      simp [P3.createOrder, hne, hds]
    rw [hdec, hds']
  · intro it₀ rest hl hty hbadp
    subst hl
    rcases hbadp with ⟨p, hp, hlt⟩
    simp [P3.createOrder, P3.loop, hty, hp, hlt]

/-- Claim C3 witness: 2 units of the stock-10 product are accepted (their
decrement is issued and retained), then 5 units of the stock-2 product fail:
status 400, nothing persisted, the decrement list splits before the failing
item, and concretely equals just the first item's decrement. -/
theorem c3_insufficient_stock_witness :
    ((P3.createOrder p3env [] (some p3items)).status = 400 ∧
     (P3.createOrder p3env [] (some p3items)).db = [] ∧
     (∃ l₁ itf l₂, p3items = l₁ ++ itf :: l₂ ∧
       (P3.createOrder p3env [] (some p3items)).decrements =
         l₁.filterMap (fun it =>
           if it.type = some "product" then some (it.itemID, it.quantity)
           else none)) ∧
     (∀ it₀ rest, p3items = it₀ :: rest → it₀.type = some "product" →
       (∃ p, p3env.products it₀.itemID = some p ∧ p.stock < it₀.quantity) →
       (P3.createOrder p3env [] (some p3items)).decrements = [])) ∧
    (P3.createOrder p3env [] (some p3items)).decrements = [("p1", 2)] :=
  ⟨c3_insufficient_stock p3env [] p3items (by decide) (by decide), by decide⟩

/-- Claim C3 counterexample: the main controller's `createOrder` performs
no stock check — requesting 20 units of the stock-10 product succeeds with
200, persists the order and issues the stock decrement, refuting the claim
for this `createOrder`. -/
theorem c3_counterexample :
    envA.products "p1" = some { name := "Widget", price := some 5, stock := 10 } ∧
    bodyExcess.items =
      some [{ productId := some "p1", serviceId := none, quantity := some 20 }] ∧
    (createOrder envA [] bodyExcess "n1").status = 200 ∧
    (createOrder envA [] bodyExcess "n1").savedOrder.isSome = true ∧
    (createOrder envA [] bodyExcess "n1").stockCalls = [Call.putStock "p1" 20] := by
  decide
